import Mathlib

/-!
Verification development for the paper-trading session engine
(`src/Backend/app.py` and `src/Backend/app_1.py`).

Prices, balances and percentages are modelled as exact rationals (ℚ).
Python's `round(x, d)` is modelled as rounding `x * 10^d` to the nearest
integer.  Python uses banker's rounding at exact ties while Mathlib's
`round` rounds half up; no value appearing in this development lands on a
tie, and the general theorems only use the bound `|round x - x| <= 1/2`,
which holds for either tie convention.

Randomness is made explicit: every random draw of the source
(`random.random()`, `random.choice`, `random.choices`) is modelled by a
rational parameter `rand` ranging over `[0, 1)`; a uniform choice between
two values picks the first exactly when `rand < 1/2`.
-/

/-- Trade direction, the `'LONG'` / `'SHORT'` strings of the source. -/
inductive Direction where
  | long
  | short
deriving DecidableEq, Repr

/-- Status of a trade in `app.py`: `'OPEN'`, `'CLOSED_WIN'`, `'CLOSED_LOSS'`. -/
inductive TradeStatus where
  | open_
  | closedWin
  | closedLoss
deriving DecidableEq, Repr

namespace AppPy

/-- The `TradeEntry` dataclass of `app.py`, restricted to the fields the
engine's logic reads or writes (ids, timestamps, the symbol string, the
informational `current_roe`/`drawdown`/`max_roe` snapshot copies and the
free-text notes are dropped: no control flow depends on them). -/
structure TradeEntry where
  trade_id : ℕ
  side : Direction
  entry_price : ℚ
  quantity : ℚ
  leverage : ℚ
  risk_pct : ℚ
  reward_pct : ℚ
  stop_loss : ℚ
  take_profit : ℚ
  trade_status : TradeStatus
  exit_price : Option ℚ
  actual_return_pct : Option ℚ
deriving DecidableEq, Repr

/-- Mutable and configuration state of `EnhancedPaperTrader` in `app.py`
(file-system/logging fields dropped). -/
structure State where
  leverage : ℚ
  base_risk_pct : ℚ
  base_reward_pct : ℚ
  target_roe : ℚ
  adjustment_factor : ℚ
  initial_balance : ℚ
  max_trades_per_session : ℕ
  current_balance : ℚ
  current_roe : ℚ
  max_roe : ℚ
  open_trades : List TradeEntry
  closed_trades : List TradeEntry
  trade_counter : ℕ
  is_running : Bool
  status : String
  signal_history : List Direction
  long_count : ℕ
  short_count : ℕ
deriving DecidableEq, Repr

/-- Python's `round(x, d)` on our rational model. -/
def roundTo (d : ℕ) (x : ℚ) : ℚ := (round (x * 10 ^ d) : ℤ) / 10 ^ d

/-- `EnhancedPaperTrader.__init__` with the constructor's defaults
(`leverage=10`, `base_risk_pct=5`, `base_reward_pct=15`, `target_roe=100`,
`adjustment_factor=1.5`, `initial_balance=1000`,
`max_trades_per_session=50`). -/
def mkTrader : State where
  leverage := 10
  base_risk_pct := 5
  base_reward_pct := 15
  target_roe := 100
  adjustment_factor := 3 / 2
  initial_balance := 1000
  max_trades_per_session := 50
  current_balance := 1000
  current_roe := 0
  max_roe := 0
  open_trades := []
  closed_trades := []
  trade_counter := 0
  is_running := false
  status := "STOPPED"
  signal_history := []
  long_count := 0
  short_count := 0

/-- `EnhancedPaperTrader.calculate_adaptive_risk_reward`. -/
def calculate_adaptive_risk_reward (s : State) (win_rate : ℚ) : ℚ × ℚ :=
  let remaining_roe_needed : ℚ := max 0 (s.target_roe - s.current_roe)
  let trades_remaining : ℚ :=
    ((max 1 ((s.max_trades_per_session : ℤ) - s.closed_trades.length) : ℤ) : ℚ)
  let base : ℚ × ℚ :=
    if s.closed_trades.length < 3 then
      (s.base_risk_pct, s.base_reward_pct)
    else if win_rate < 1 / 2 then
      let win_rate_deficit := (1 / 2 - win_rate) * 100
      let adjustment_multiplier := 1 + win_rate_deficit * s.adjustment_factor / 100
      (min (s.base_risk_pct * (1 + win_rate_deficit / 300)) 12,
        s.base_reward_pct * adjustment_multiplier)
    else
      let win_rate_surplus := (win_rate - 1 / 2) * 100
      let reduction_factor := max (7 / 10) (1 - win_rate_surplus * (1 / 100))
      (s.base_risk_pct * reduction_factor, s.base_reward_pct * reduction_factor)
  let urgent : ℚ × ℚ :=
    if remaining_roe_needed > 0 ∧ trades_remaining > 0 then
      let roe_per_trade_needed := remaining_roe_needed / trades_remaining
      if roe_per_trade_needed > 2 then
        let urgency_multiplier := min (5 / 2) (roe_per_trade_needed / 2)
        (min (base.1 * (6 / 5)) 15, base.2 * urgency_multiplier)
      else base
    else base
  let risk_pct : ℚ := max 2 (min urgent.1 15)
  let reward_pct : ℚ := max 8 (min urgent.2 50)
  let reward_pct : ℚ := if reward_pct < risk_pct * (3 / 2) then risk_pct * 2 else reward_pct
  (roundTo 2 risk_pct, roundTo 2 reward_pct)

/-- `EnhancedPaperTrader.calculate_optimal_position_size` (reads
`self.current_balance`, passed here explicitly). -/
def calculate_optimal_position_size
    (current_balance risk_pct entry_price stop_loss : ℚ) : ℚ :=
  let risk_amount := current_balance * (risk_pct / 100)
  let price_diff := |entry_price - stop_loss|
  if price_diff = 0 then 0
  else
    let stop_loss_pct := price_diff / entry_price
    let position_value := risk_amount / stop_loss_pct
    let quantity := position_value / entry_price
    roundTo 8 (quantity * (19 / 20))

/-- `EnhancedPaperTrader.generate_balanced_signal`.  `rand` stands for the
single random draw of the call (`random.choice` over two elements in the
bootstrap branch, `random.random()` in the weighted branch), uniform on
`[0, 1)`. -/
def generate_balanced_signal (s : State) (rand : ℚ) : Direction × State :=
  let total_signals := s.signal_history.length
  let signal : Direction :=
    if total_signals < 10 then
      if rand < 1 / 2 then .long else .short
    else
      let lr : ℚ := (s.long_count : ℚ) / total_signals
      let sr : ℚ := (s.short_count : ℚ) / total_signals
      if lr > 3 / 5 then .short
      else if sr > 3 / 5 then .long
      else
        let long_weight := 1 - lr
        let short_weight := 1 - sr
        let total_weight := long_weight + short_weight
        if rand < long_weight / total_weight then .long else .short
  (signal,
    { s with
      signal_history := s.signal_history ++ [signal]
      long_count := if signal = .long then s.long_count + 1 else s.long_count
      short_count := if signal = .short then s.short_count + 1 else s.short_count })

/-- The direction-aware `price_change_pct` computed inside
`EnhancedPaperTrader.close_enhanced_trade`. -/
def price_change_pct (trade : TradeEntry) (exit_price : ℚ) : ℚ :=
  if trade.side = .long then
    (exit_price - trade.entry_price) / trade.entry_price * 100
  else
    (trade.entry_price - exit_price) / trade.entry_price * 100

/-- `EnhancedPaperTrader.close_enhanced_trade`.  Note that the source
applies `self.leverage` (the session's), not `trade.leverage`.  The caller
removes the trade from the open list; this function only appends the
closed copy and updates balance / ROE / high-water mark. -/
def close_enhanced_trade (s : State) (trade : TradeEntry) (exit_price : ℚ) :
    TradeEntry × State :=
  let leveraged_return_pct := price_change_pct trade exit_price * s.leverage
  let closed : TradeEntry :=
    { trade with
      exit_price := some exit_price
      actual_return_pct := some leveraged_return_pct
      trade_status :=
        if leveraged_return_pct > 0 then .closedWin else .closedLoss }
  let new_balance := s.current_balance * (1 + leveraged_return_pct / 100)
  let new_roe := (new_balance - s.initial_balance) / s.initial_balance * 100
  (closed,
    { s with
      current_balance := new_balance
      current_roe := new_roe
      max_roe := if new_roe > s.max_roe then new_roe else s.max_roe
      closed_trades := s.closed_trades ++ [closed] })

/-- Exit trigger of `EnhancedPaperTrader.check_trade_exits`: direction-aware
stop-loss / take-profit crossing at `current_price`. -/
def shouldClose (current_price : ℚ) (trade : TradeEntry) : Bool :=
  if trade.side = .long then
    current_price ≤ trade.stop_loss ∨ current_price ≥ trade.take_profit
  else
    current_price ≥ trade.stop_loss ∨ current_price ≤ trade.take_profit

/-- `EnhancedPaperTrader.check_trade_exits`.  `price?` is the result of the
tick's `get_current_price()` call (`none` on fetch failure, which makes the
whole check a no-op).  The source closes the triggered trades in list order
and then removes exactly those trades from the open list. -/
def check_trade_exits (s : State) (price? : Option ℚ) : State :=
  match price? with
  | none => s
  | some current_price =>
    let triggered := s.open_trades.filter (shouldClose current_price)
    let remaining := s.open_trades.filter (fun t => ¬ shouldClose current_price t)
    let s' := triggered.foldl
      (fun st t => (close_enhanced_trade st t current_price).2) s
    { s' with open_trades := remaining }

/-- `EnhancedPaperTrader.place_enhanced_trade`.  `price?` is the
`get_current_price()` result.  Mirrors the source faithfully, including
that `self.trade_counter` is incremented before the quantity validation
and that no open-position-cap or balance check is performed here. -/
def place_enhanced_trade (s : State) (side : Direction) (price? : Option ℚ) :
    Option TradeEntry × State :=
  match price? with
  | none => (none, s)
  | some current_price =>
    let current_win_rate : ℚ :=
      if s.closed_trades.length ≥ 3 then
        (s.closed_trades.countP
          (fun t => decide (0 < t.actual_return_pct.getD 0)) : ℚ)
          / s.closed_trades.length
      else 1 / 2
    let rr := calculate_adaptive_risk_reward s current_win_rate
    let risk_pct := rr.1
    let reward_pct := rr.2
    let counter' := s.trade_counter + 1
    let stop_loss_distance := risk_pct / 100 / s.leverage
    let take_profit_distance := reward_pct / 100 / s.leverage
    let stop_loss :=
      if side = .long then current_price * (1 - stop_loss_distance)
      else current_price * (1 + stop_loss_distance)
    let take_profit :=
      if side = .long then current_price * (1 + take_profit_distance)
      else current_price * (1 - take_profit_distance)
    let quantity :=
      calculate_optimal_position_size s.current_balance risk_pct
        current_price stop_loss
    if quantity ≤ 0 then
      (none, { s with trade_counter := counter' })
    else
      let trade : TradeEntry :=
        { trade_id := counter'
          side := side
          entry_price := current_price
          quantity := quantity
          leverage := s.leverage
          risk_pct := risk_pct
          reward_pct := reward_pct
          stop_loss := stop_loss
          take_profit := take_profit
          trade_status := .open_
          exit_price := none
          actual_return_pct := none }
      (some trade,
        { s with
          trade_counter := counter'
          open_trades := s.open_trades ++ [trade] })

/-- Closing fold of `EnhancedPaperTrader.stop_trading`: close every open
trade at `p` in order (each close appends to the closed list and updates
balance). -/
def closeAll (s : State) (l : List TradeEntry) (p : ℚ) : State :=
  l.foldl (fun st t => (close_enhanced_trade st t p).2) s

/-- `EnhancedPaperTrader.stop_trading`.  Sets the stop flags, then — only
if the price fetch succeeds — closes every open trade at that price with
reason `"Session Ended"` and removes each from the open list.  On a fetch
failure the open trades are left open. -/
def stop_trading (s : State) (price? : Option ℚ) : State :=
  let s1 := { s with is_running := false, status := "STOPPED" }
  match price? with
  | none => s1
  | some current_price =>
    let s2 := closeAll s1 s1.open_trades current_price
    { s2 with open_trades := [] }

/-- One iteration of the `while` body of
`EnhancedPaperTrader.start_enhanced_trading` (terminal-condition tests and
sleeping excluded): exits are evaluated first, then — only when fewer than
2 positions are open — a signal is generated and, with the 30% execution
throttle (`exec_rand < 3/10`), a trade is placed.  `price_exit?` and
`price_place?` are the tick's two `get_current_price()` calls. -/
def tick (s : State) (price_exit? price_place? : Option ℚ)
    (sig_rand exec_rand : ℚ) : State :=
  let s1 := check_trade_exits s price_exit?
  if s1.open_trades.length < 2 then
    let gs := generate_balanced_signal s1 sig_rand
    if exec_rand < 3 / 10 then (place_enhanced_trade gs.2 gs.1 price_place?).2
    else gs.2
  else s1

/-- Route handler `place_enhanced_manual_trade` of `app.py`: after
validating the side string (captured here by the `Direction` type) it
delegates directly to `place_enhanced_trade`; it performs no
open-position-cap or balance check of its own. -/
def manual_trade_route (s : State) (side : Direction) (price? : Option ℚ) :
    Option TradeEntry × State :=
  place_enhanced_trade s side price?

/-- Route handler `force_signal_balance` of `app.py`: with a nonempty
signal history, resets the counters to an even split of the historical
total (`long := total // 2`, `short := total - long`). -/
def force_signal_balance (s : State) : State :=
  let total_signals := s.signal_history.length
  if 0 < total_signals then
    let ideal_long := total_signals / 2
    let ideal_short := total_signals - ideal_long
    { s with long_count := ideal_long, short_count := ideal_short }
  else s

end AppPy

namespace AppOne

/-- The `Trade` dataclass of `app_1.py` (random uuid id and timestamp
string dropped; nothing in the engine branches on them). -/
structure Trade where
  signal : Direction
  entry_price : ℚ
  quantity : ℚ
  leverage : ℚ
  stop_loss : ℚ
  take_profit : ℚ
  status : String
  exit_price : Option ℚ
  pnl : ℚ
deriving DecidableEq, Repr

/-- The `Signal` dataclass of `app_1.py` (uuid id and timestamp dropped). -/
structure Sig where
  direction : Direction
  price : ℚ
  confidence : ℚ
  long_r : ℚ
  short_r : ℚ
deriving DecidableEq, Repr

/-- State of `EnhancedTrader` in `app_1.py` (thread handle dropped). -/
structure State where
  balance : ℚ
  initial_balance : ℚ
  max_balance : ℚ
  trades : List Trade
  signals : List Sig
  active_trades : List Trade
  is_running : Bool
  last_error : Option String
  base_risk : ℚ
  base_reward : ℚ
  leverage : ℚ
  long_count : ℕ
  short_count : ℕ
deriving DecidableEq, Repr

/-- `EnhancedTrader.__init__`: everything is hardcoded (`balance=1000`,
`base_risk=0.05`, `base_reward=0.15`, `leverage=10`). -/
def mkTrader : State where
  balance := 1000
  initial_balance := 1000
  max_balance := 1000
  trades := []
  signals := []
  active_trades := []
  is_running := false
  last_error := none
  base_risk := 1 / 20
  base_reward := 3 / 20
  leverage := 10
  long_count := 0
  short_count := 0

/-- `EnhancedTrader.get_current_price`: on any fetch failure the source
returns the fallback price `1.0` instead of reporting the failure.
`price?` is `none` exactly when the HTTP fetch fails or returns bad data. -/
def get_current_price (price? : Option ℚ) : ℚ := price?.getD 1

/-- `EnhancedTrader.calculate_drawdown`. -/
def calculate_drawdown (s : State) : ℚ :=
  if s.max_balance ≤ s.initial_balance then 0
  else max 0 ((s.max_balance - s.balance) / s.max_balance)

/-- `EnhancedTrader.get_dynamic_risk_reward`: drawdown-keyed step table
over risk/reward fractions (not percentages). -/
def get_dynamic_risk_reward (s : State) : ℚ × ℚ :=
  let drawdown := calculate_drawdown s
  if drawdown < 1 / 20 then (s.base_risk, s.base_reward)
  else if drawdown < 3 / 20 then (2 / 25, 1 / 4)
  else if drawdown < 1 / 4 then (3 / 25, 2 / 5)
  else (3 / 20, 1 / 2)

/-- `reason.lower().replace(' ', '_')` from `EnhancedTrader.close_trade`. -/
def normalizeReason (r : String) : String :=
  (r.map Char.toLower).replace " " "_"

/-- Remove the first occurrence of an element (Python `list.remove`;
dataclass equality is field-wise). -/
def eraseFirst {α : Type} [DecidableEq α] : List α → α → List α
  | [], _ => []
  | x :: xs, t => if x = t then xs else x :: eraseFirst xs t

/-- Replace the first occurrence of an element.  The source mutates the
trade object in place, so the shared object inside `self.trades` is
updated as well; value-wise this replaces that list entry. -/
def replaceFirst {α : Type} [DecidableEq α] : List α → α → α → List α
  | [], _, _ => []
  | x :: xs, t, t' => if x = t then t' :: xs else x :: replaceFirst xs t t'

/-- `EnhancedTrader.close_trade`: records exit fields, adds the
quantity-scaled leveraged PnL to the balance (additively), raises the
high-water mark, and removes the trade from the active list. -/
def close_trade (s : State) (trade : Trade) (exit_price : ℚ) (reason : String) :
    State :=
  let price_change : ℚ :=
    if trade.signal = .long then
      (exit_price - trade.entry_price) / trade.entry_price
    else
      (trade.entry_price - exit_price) / trade.entry_price
  let pnl := trade.quantity * trade.entry_price * price_change * trade.leverage
  let closed : Trade :=
    { trade with
      exit_price := some exit_price
      status := "closed_" ++ normalizeReason reason
      pnl := pnl }
  let new_balance := s.balance + pnl
  { s with
    balance := new_balance
    max_balance := max s.max_balance new_balance
    trades := replaceFirst s.trades trade closed
    active_trades := eraseFirst s.active_trades trade }

/-- Exit trigger and reason of `EnhancedTrader.check_trade_exits`. -/
def exitReason (current_price : ℚ) (trade : Trade) : Option String :=
  if trade.signal = .long then
    if current_price ≤ trade.stop_loss then some "Stop Loss"
    else if current_price ≥ trade.take_profit then some "Take Profit"
    else none
  else
    if current_price ≥ trade.stop_loss then some "Stop Loss"
    else if current_price ≤ trade.take_profit then some "Take Profit"
    else none

/-- `EnhancedTrader.check_trade_exits`: always evaluates exits at
`get_current_price` — which is the fallback `1.0` when the fetch fails. -/
def check_trade_exits (s : State) (price? : Option ℚ) : State :=
  let current_price := get_current_price price?
  s.active_trades.foldl
    (fun st t =>
      match exitReason current_price t with
      | some r => close_trade st t current_price r
      | none => st) s

/-- `EnhancedTrader.execute_trade`: all validation happens before any
mutation; failures only record `last_error`.  Returns the trade on
success. -/
def execute_trade (s : State) (sig : Sig) : Option Trade × State :=
  if s.active_trades.length ≥ 2 then
    (none, { s with last_error := some "Maximum active trades (2) reached" })
  else if s.balance ≤ 50 then
    (none, { s with last_error := some "Insufficient balance" })
  else if sig.price ≤ 0 then
    (none, { s with last_error := some "Invalid signal price" })
  else
    let rr := get_dynamic_risk_reward s
    let risk_pct := rr.1
    let reward_pct := rr.2
    let risk_amount := min (s.balance * risk_pct) (s.balance * (3 / 20))
    let stop_loss :=
      if sig.direction = .long then sig.price * (1 - risk_pct / s.leverage)
      else sig.price * (1 + risk_pct / s.leverage)
    let take_profit :=
      if sig.direction = .long then sig.price * (1 + reward_pct / s.leverage)
      else sig.price * (1 - reward_pct / s.leverage)
    if stop_loss ≤ 0 ∨ take_profit ≤ 0 then
      (none, { s with last_error := some "Invalid stop loss or take profit calculated" })
    else if sig.direction = .long ∧ stop_loss ≥ sig.price then
      (none, { s with last_error := some "Invalid stop loss for LONG position" })
    else if sig.direction = .short ∧ stop_loss ≤ sig.price then
      (none, { s with last_error := some "Invalid stop loss for SHORT position" })
    else
      let stop_loss_pct := |sig.price - stop_loss| / sig.price
      if stop_loss_pct = 0 ∨ stop_loss_pct > 1 / 5 then
        (none, { s with last_error := some "Stop loss percentage out of range" })
      else
        let position_value := risk_amount / stop_loss_pct
        let quantity := max (1 / 100) (position_value / sig.price * (9 / 10))
        let trade : Trade :=
          { signal := sig.direction
            entry_price := sig.price
            quantity := quantity
            leverage := s.leverage
            stop_loss := stop_loss
            take_profit := take_profit
            status := "open"
            exit_price := none
            pnl := 0 }
        (some trade,
          { s with
            trades := s.trades ++ [trade]
            active_trades := s.active_trades ++ [trade]
            last_error := none })

/-- `EnhancedTrader.generate_signal`.  `rand` is the call's random draw
(uniform on `[0, 1)`); the weighted branch (`random.choices` with weights
`[short_ratio, long_ratio]` for `["LONG", "SHORT"]`) picks LONG exactly
when `rand` falls below the normalized LONG weight. -/
def generate_signal (s : State) (price? : Option ℚ) (rand : ℚ) : Sig × State :=
  let price := get_current_price price?
  let total_signals := s.long_count + s.short_count
  let lr : ℚ := (s.long_count : ℚ) / (max total_signals 1 : ℕ)
  let sr : ℚ := (s.short_count : ℚ) / (max total_signals 1 : ℕ)
  let dc : Direction × ℚ :=
    if total_signals < 10 then
      (if rand < 1 / 2 then (.long, 1 / 2) else (.short, 1 / 2))
    else if lr > 3 / 5 then (.short, 4 / 5)
    else if sr > 3 / 5 then (.long, 4 / 5)
    else if rand < sr / (sr + lr) then (.long, 3 / 5)
    else (.short, 3 / 5)
  let sig : Sig :=
    { direction := dc.1
      price := price
      confidence := dc.2
      long_r := lr
      short_r := sr }
  (sig,
    { s with
      long_count := if dc.1 = .long then s.long_count + 1 else s.long_count
      short_count := if dc.1 = .short then s.short_count + 1 else s.short_count
      signals := s.signals ++ [sig] })

/-- `EnhancedTrader.stop_trading`: clears the run flag and closes every
active trade at `get_current_price` — the fallback `1.0` if the fetch
fails — with reason `"Manual Close"`. -/
def stop_trading (s : State) (price? : Option ℚ) : State :=
  let s1 := { s with is_running := false }
  let current_price := get_current_price price?
  s1.active_trades.foldl
    (fun st t => close_trade st t current_price "Manual Close") s1

/-- Route handler `force_balance` of `app_1.py`: resets both signal
counters to zero and leaves the recorded signal history untouched. -/
def force_balance (s : State) : State :=
  { s with long_count := 0, short_count := 0 }

/-- Route handler `manual_trade` of `app_1.py`: after the cap and balance
pre-checks it appends a manual signal (incrementing the matching counter)
and runs `execute_trade`. -/
def manual_trade (s : State) (direction : Direction) (price? : Option ℚ) :
    Option Trade × State :=
  if s.active_trades.length ≥ 2 then (none, s)
  else if s.balance ≤ 50 then (none, s)
  else
    let current_price := get_current_price price?
    let sig : Sig :=
      { direction := direction
        price := current_price
        confidence := 9 / 10
        long_r := (s.long_count : ℚ) / (max s.signals.length 1 : ℕ)
        short_r := (s.short_count : ℚ) / (max s.signals.length 1 : ℕ) }
    let s1 :=
      { s with
        signals := s.signals ++ [sig]
        long_count := if direction = .long then s.long_count + 1 else s.long_count
        short_count := if direction = .short then s.short_count + 1 else s.short_count }
    execute_trade s1 sig

end AppOne

namespace Fixtures

/-- A representative open LONG trade of the `app.py` variant (entry 100,
stop-loss 99.5, take-profit 101.5, as produced by risk 5 / reward 15 at
leverage 10). -/
def pyTrade : AppPy.TradeEntry where
  trade_id := 1
  side := .long
  entry_price := 100
  quantity := 95
  leverage := 10
  risk_pct := 5
  reward_pct := 15
  stop_loss := 199 / 2
  take_profit := 203 / 2
  trade_status := .open_
  exit_price := none
  actual_return_pct := none

/-- An `app.py` session holding two open positions. -/
def pyTwoOpen : AppPy.State :=
  { AppPy.mkTrader with
    open_trades := [pyTrade, { pyTrade with trade_id := 2 }]
    trade_counter := 2 }

/-- An `app.py` session holding one open position. -/
def pyOneOpen : AppPy.State :=
  { AppPy.mkTrader with open_trades := [pyTrade], trade_counter := 1 }

/-- An `app.py` session whose balance has been wiped out. -/
def pyBroke : AppPy.State := { AppPy.mkTrader with current_balance := 0 }

/-- An `app.py` session whose configured base reward barely satisfies the
1.5x skew over its base risk (risk 5.3356, reward 8.0049) and whose target
is already met, so the policy passes the base values straight to the final
clamp-and-round stage. -/
def pyTightBase : AppPy.State :=
  { AppPy.mkTrader with
    base_risk_pct := 53356 / 10000
    base_reward_pct := 80049 / 10000
    target_roe := 0 }

/-- An `app.py` session configured with `max_trades` 10, activating the
urgency adjustment from the very first trade. -/
def pyUrgent : AppPy.State := { AppPy.mkTrader with max_trades_per_session := 10 }

/-- An `app.py` session whose target ROE is already met (target 0), so the
urgency adjustment stays inactive. -/
def pyMet : AppPy.State := { AppPy.mkTrader with target_roe := 0 }

/-- An `app.py` session with 10 recorded signals, 7 of them LONG. -/
def pySkewedSignals : AppPy.State :=
  { AppPy.mkTrader with
    signal_history := List.replicate 7 .long ++ List.replicate 3 .short
    long_count := 7
    short_count := 3 }

/-- A representative active LONG trade of the `app_1.py` variant. -/
def oneTrade : AppOne.Trade where
  signal := .long
  entry_price := 100
  quantity := 1
  leverage := 10
  stop_loss := 199 / 2
  take_profit := 203 / 2
  status := "open"
  exit_price := none
  pnl := 0

/-- An `app_1.py` trader with one active trade. -/
def oneActive : AppOne.State :=
  { AppOne.mkTrader with trades := [oneTrade], active_trades := [oneTrade] }

/-- An `app_1.py` trader at the cap of two active trades. -/
def twoActive : AppOne.State :=
  { AppOne.mkTrader with
    trades := [oneTrade, oneTrade]
    active_trades := [oneTrade, oneTrade] }

/-- An `app_1.py` trader with one recorded signal (a LONG). -/
def oneSignal : AppOne.State :=
  { AppOne.mkTrader with
    signals := [{ direction := .long, price := 1, confidence := 1 / 2,
                  long_r := 0, short_r := 0 }]
    long_count := 1 }

/-- An `app_1.py` trader whose counters record 7 LONG / 3 SHORT signals. -/
def a1Skewed : AppOne.State :=
  { AppOne.mkTrader with long_count := 7, short_count := 3 }

/-- A LONG signal at price 100 for the `app_1.py` variant. -/
def longSig : AppOne.Sig where
  direction := .long
  price := 100
  confidence := 1 / 2
  long_r := 0
  short_r := 0

end Fixtures

section Helpers

/-- Two-decimal rounding moves a value by at most `1/200`. -/
lemma roundTo_two_close (x : ℚ) :
    x - 1 / 200 ≤ AppPy.roundTo 2 x ∧ AppPy.roundTo 2 x ≤ x + 1 / 200 := by
  unfold AppPy.roundTo
  have h1 := sub_half_lt_round (x * 10 ^ 2)
  have h2 := round_le_add_half (x * 10 ^ 2)
  have hp : ((10 : ℚ) ^ 2) = 100 := by norm_num
  rw [hp] at h1 h2 ⊢
  constructor <;> linarith

/-- Two-decimal rounding keeps a value inside any integer-bounded
interval that contains it. -/
lemma roundTo_two_int_bounds (x : ℚ) (a b : ℤ) (ha : (a : ℚ) ≤ x) (hb : x ≤ (b : ℚ)) :
    (a : ℚ) ≤ AppPy.roundTo 2 x ∧ AppPy.roundTo 2 x ≤ (b : ℚ) := by
  unfold AppPy.roundTo
  have h1 := sub_half_lt_round (x * 10 ^ 2)
  have h2 := round_le_add_half (x * 10 ^ 2)
  have hp : ((10 : ℚ) ^ 2) = 100 := by norm_num
  rw [hp] at h1 h2 ⊢
  have hlo : (100 * a - 1 : ℤ) < round (x * 100) := by
    have : ((100 * a - 1 : ℤ) : ℚ) < ((round (x * 100) : ℤ) : ℚ) := by
      push_cast
      linarith
    exact_mod_cast this
  have hhi : round (x * 100) < (100 * b + 1 : ℤ) := by
    have : ((round (x * 100) : ℤ) : ℚ) < ((100 * b + 1 : ℤ) : ℚ) := by
      push_cast
      linarith
    exact_mod_cast this
  have hlo' : (100 * a : ℤ) ≤ round (x * 100) := by omega
  have hhi' : round (x * 100) ≤ (100 * b : ℤ) := by omega
  have hlo'' : ((100 * a : ℤ) : ℚ) ≤ ((round (x * 100) : ℤ) : ℚ) := by exact_mod_cast hlo'
  have hhi'' : ((round (x * 100) : ℤ) : ℚ) ≤ ((100 * b : ℤ) : ℚ) := by exact_mod_cast hhi'
  push_cast at hlo'' hhi''
  constructor <;> linarith

/-- The final clamp / skew-fixup / round stage of
`calculate_adaptive_risk_reward`, for arbitrary incoming values: both
outputs land in their documented ranges and the reward misses the
`1.5 x risk` skew by at most `1/80`. -/
lemma clamp_stage_bounds (a b : ℚ) :
    2 ≤ AppPy.roundTo 2 (max 2 (min a 15)) ∧
    AppPy.roundTo 2 (max 2 (min a 15)) ≤ 15 ∧
    8 ≤ AppPy.roundTo 2
      (if max 8 (min b 50) < max 2 (min a 15) * (3 / 2) then max 2 (min a 15) * 2
        else max 8 (min b 50)) ∧
    AppPy.roundTo 2
      (if max 8 (min b 50) < max 2 (min a 15) * (3 / 2) then max 2 (min a 15) * 2
        else max 8 (min b 50)) ≤ 50 ∧
    AppPy.roundTo 2 (max 2 (min a 15)) * (3 / 2) - 1 / 80 ≤
      AppPy.roundTo 2
        (if max 8 (min b 50) < max 2 (min a 15) * (3 / 2) then max 2 (min a 15) * 2
          else max 8 (min b 50)) := by
  set r : ℚ := max 2 (min a 15) with hr
  set w0 : ℚ := max 8 (min b 50) with hw0
  have h1 : 2 ≤ r := le_max_left _ _
  have h2 : r ≤ 15 := max_le (by norm_num) (min_le_right a 15)
  have h3 : 8 ≤ w0 := le_max_left _ _
  have h4 : w0 ≤ 50 := max_le (by norm_num) (min_le_right b 50)
  set w1 : ℚ := if w0 < r * (3 / 2) then r * 2 else w0 with hw1
  have h5 : r * (3 / 2) ≤ w1 ∧ 8 ≤ w1 ∧ w1 ≤ 50 := by
    rw [hw1]
    split_ifs with hc
    · refine ⟨by linarith, by linarith, by linarith⟩
    · exact ⟨le_of_not_lt hc, h3, h4⟩
  have hrB := roundTo_two_int_bounds r 2 15 (by exact_mod_cast h1) (by exact_mod_cast h2)
  have hwB := roundTo_two_int_bounds w1 8 50 (by exact_mod_cast h5.2.1) (by exact_mod_cast h5.2.2)
  have hrC := roundTo_two_close r
  have hwC := roundTo_two_close w1
  refine ⟨by exact_mod_cast hrB.1, by exact_mod_cast hrB.2,
    by exact_mod_cast hwB.1, by exact_mod_cast hwB.2, ?_⟩
  have := h5.1
  linarith

/-- Folding `close_enhanced_trade` over a list of trades never touches the
open list, the signal history or the signal counters, and appends exactly
one closed trade per element. -/
lemma closeAll_fields (l : List AppPy.TradeEntry) (s : AppPy.State) (p : ℚ) :
    (AppPy.closeAll s l p).open_trades = s.open_trades ∧
    (AppPy.closeAll s l p).signal_history = s.signal_history ∧
    (AppPy.closeAll s l p).long_count = s.long_count ∧
    (AppPy.closeAll s l p).short_count = s.short_count ∧
    (AppPy.closeAll s l p).closed_trades.length =
      s.closed_trades.length + l.length ∧
    (AppPy.closeAll s l p).status = s.status ∧
    (AppPy.closeAll s l p).is_running = s.is_running := by
  induction l generalizing s with
  | nil => exact ⟨rfl, rfl, rfl, rfl, rfl, rfl, rfl⟩
  | cons t rest ih =>
    have hstep : ((AppPy.close_enhanced_trade s t p).2).closed_trades.length =
        s.closed_trades.length + 1 := by
      simp [AppPy.close_enhanced_trade]
    have hfold : AppPy.closeAll s (t :: rest) p =
        AppPy.closeAll ((AppPy.close_enhanced_trade s t p).2) rest p := rfl
    have h := ih ((AppPy.close_enhanced_trade s t p).2)
    rw [hfold]
    refine ⟨h.1, h.2.1, h.2.2.1, h.2.2.2.1, ?_, h.2.2.2.2.2.1, h.2.2.2.2.2.2⟩
    rw [h.2.2.2.2.1, hstep, List.length_cons]
    omega

/-- `check_trade_exits` never lengthens the open list and leaves the
signal history and counters alone. -/
lemma check_trade_exits_fields (s : AppPy.State) (p? : Option ℚ) :
    (AppPy.check_trade_exits s p?).open_trades.length ≤ s.open_trades.length ∧
    (AppPy.check_trade_exits s p?).signal_history = s.signal_history ∧
    (AppPy.check_trade_exits s p?).long_count = s.long_count ∧
    (AppPy.check_trade_exits s p?).short_count = s.short_count := by
  cases p? with
  | none => exact ⟨le_refl _, rfl, rfl, rfl⟩
  | some p =>
    have h := closeAll_fields (s.open_trades.filter (AppPy.shouldClose p)) s p
    refine ⟨?_, h.2.1, h.2.2.1, h.2.2.2.1⟩
    simpa [AppPy.check_trade_exits, AppPy.closeAll] using
      List.length_filter_le (fun t => ¬ AppPy.shouldClose p t) s.open_trades

/-- `place_enhanced_trade` adds at most one open trade and never touches
the signal history or the signal counters. -/
lemma place_fields (s : AppPy.State) (side : Direction) (p? : Option ℚ) :
    (AppPy.place_enhanced_trade s side p?).2.open_trades.length ≤
      s.open_trades.length + 1 ∧
    (AppPy.place_enhanced_trade s side p?).2.signal_history = s.signal_history ∧
    (AppPy.place_enhanced_trade s side p?).2.long_count = s.long_count ∧
    (AppPy.place_enhanced_trade s side p?).2.short_count = s.short_count := by
  cases p? with
  | none => exact ⟨Nat.le_succ _, rfl, rfl, rfl⟩
  | some p =>
    dsimp only [AppPy.place_enhanced_trade]
    split_ifs <;> first
      | exact ⟨Nat.le_succ _, rfl, rfl, rfl⟩
      | exact ⟨by simp, rfl, rfl, rfl⟩

/-- On a failed placement with an available price, the only state change
is the already-performed counter increment. -/
lemma place_failure_state (s : AppPy.State) (side : Direction) (p : ℚ)
    (h : (AppPy.place_enhanced_trade s side (some p)).1 = none) :
    (AppPy.place_enhanced_trade s side (some p)).2 =
      { s with trade_counter := s.trade_counter + 1 } := by
  dsimp only [AppPy.place_enhanced_trade] at h ⊢
  split_ifs at h ⊢ <;> first
    | rfl
    | simp at h

/-- `generate_balanced_signal` leaves everything but the signal history
and the counters alone. -/
lemma generate_fields (s : AppPy.State) (r : ℚ) :
    (AppPy.generate_balanced_signal s r).2.open_trades = s.open_trades ∧
    (AppPy.generate_balanced_signal s r).2.closed_trades = s.closed_trades ∧
    (AppPy.generate_balanced_signal s r).2.current_balance = s.current_balance ∧
    (AppPy.generate_balanced_signal s r).2.is_running = s.is_running := by
  exact ⟨rfl, rfl, rfl, rfl⟩

/-- A signal-generation step appends exactly one signal and bumps exactly
one of the two counters. -/
lemma generate_counts (s : AppPy.State) (r : ℚ) :
    (AppPy.generate_balanced_signal s r).2.signal_history.length =
      s.signal_history.length + 1 ∧
    (AppPy.generate_balanced_signal s r).2.long_count +
      (AppPy.generate_balanced_signal s r).2.short_count =
      s.long_count + s.short_count + 1 := by
  dsimp only [AppPy.generate_balanced_signal]
  refine ⟨by simp, ?_⟩
  split_ifs <;> first | omega | simp_all

set_option maxHeartbeats 1000000 in
/-- `app_1`'s failing `execute_trade` only records `last_error`: balance,
both trade lists, the signal history and the counters are untouched. -/
lemma execute_trade_failure (s : AppOne.State) (sig : AppOne.Sig)
    (h : (AppOne.execute_trade s sig).1 = none) :
    (AppOne.execute_trade s sig).2.balance = s.balance ∧
    (AppOne.execute_trade s sig).2.trades = s.trades ∧
    (AppOne.execute_trade s sig).2.active_trades = s.active_trades ∧
    (AppOne.execute_trade s sig).2.signals = s.signals ∧
    (AppOne.execute_trade s sig).2.long_count = s.long_count ∧
    (AppOne.execute_trade s sig).2.short_count = s.short_count := by
  dsimp only [AppOne.execute_trade] at h ⊢
  split_ifs at h ⊢ <;> first
    | exact ⟨rfl, rfl, rfl, rfl, rfl, rfl⟩
    | simp at h

/-- `app_1`'s `execute_trade` never changes the signal history or the
signal counters, whatever its outcome. -/
lemma execute_trade_signals (s : AppOne.State) (sig : AppOne.Sig) :
    (AppOne.execute_trade s sig).2.signals = s.signals ∧
    (AppOne.execute_trade s sig).2.long_count = s.long_count ∧
    (AppOne.execute_trade s sig).2.short_count = s.short_count := by
  dsimp only [AppOne.execute_trade]
  split_ifs <;> exact ⟨rfl, rfl, rfl⟩

/-- Folding `app_1`'s `close_trade` over the trader's own active list
(as `stop_trading` does) empties the active list and clears nothing
else relevant: the run flag is preserved. -/
lemma appone_close_fold_active (l : List AppOne.Trade) (s : AppOne.State)
    (p : ℚ) (reason : String) (hl : s.active_trades = l) :
    (l.foldl (fun st t => AppOne.close_trade st t p reason) s).active_trades = [] ∧
    (l.foldl (fun st t => AppOne.close_trade st t p reason) s).is_running =
      s.is_running := by
  induction l generalizing s with
  | nil => exact ⟨hl, rfl⟩
  | cons t rest ih =>
    have hstep : (AppOne.close_trade s t p reason).active_trades = rest := by
      simp [AppOne.close_trade, hl, AppOne.eraseFirst]
    have h := ih (AppOne.close_trade s t p reason) hstep
    exact ⟨h.1, h.2⟩

end Helpers

/-- C1 (amended).  With two positions already open: in `app_1.py` both the
automatic path (`execute_trade`, called from the control loop) and the
manual-trade route reject the attempt — no trade is created and balance,
trade lists, signal history and counters are unchanged; in `app.py` the
cap is enforced only by the control loop itself, whose tick can therefore
never push the open-position count above 2.  (The `app.py` manual route,
by contrast, bypasses the cap — see the counterexample.) -/
theorem C1_open_position_cap :
    (∀ (s : AppOne.State) (sig : AppOne.Sig), 2 ≤ s.active_trades.length →
      (AppOne.execute_trade s sig).1 = none ∧
      (AppOne.execute_trade s sig).2.balance = s.balance ∧
      (AppOne.execute_trade s sig).2.trades = s.trades ∧
      (AppOne.execute_trade s sig).2.active_trades = s.active_trades ∧
      (AppOne.execute_trade s sig).2.long_count = s.long_count ∧
      (AppOne.execute_trade s sig).2.short_count = s.short_count) ∧
    (∀ (s : AppOne.State) (d : Direction) (p? : Option ℚ),
      2 ≤ s.active_trades.length → AppOne.manual_trade s d p? = (none, s)) ∧
    (∀ (s : AppPy.State) (pe pp : Option ℚ) (r1 r2 : ℚ),
      s.open_trades.length ≤ 2 →
      (AppPy.tick s pe pp r1 r2).open_trades.length ≤ 2) := by
  refine ⟨?_, ?_, ?_⟩
  · intro s sig h
    have h' : s.active_trades.length ≥ 2 := h
    dsimp only [AppOne.execute_trade]
    rw [if_pos h']
    exact ⟨rfl, rfl, rfl, rfl, rfl, rfl⟩
  · intro s d p? h
    have h' : s.active_trades.length ≥ 2 := h
    dsimp only [AppOne.manual_trade]
    rw [if_pos h']
  · intro s pe pp r1 r2 h
    have hc := (check_trade_exits_fields s pe).1
    dsimp only [AppPy.tick]
    split_ifs with h1 h2
    · have hg :
        (AppPy.generate_balanced_signal (AppPy.check_trade_exits s pe) r1).2.open_trades
          = (AppPy.check_trade_exits s pe).open_trades :=
        (generate_fields _ _).1
      have hp := (place_fields
        (AppPy.generate_balanced_signal (AppPy.check_trade_exits s pe) r1).2
        (AppPy.generate_balanced_signal (AppPy.check_trade_exits s pe) r1).1 pp).1
      rw [hg] at hp
      omega
    · have hg :
        (AppPy.generate_balanced_signal (AppPy.check_trade_exits s pe) r1).2.open_trades
          = (AppPy.check_trade_exits s pe).open_trades :=
        (generate_fields _ _).1
      rw [hg]
      omega
    · omega

/-- C1 counterexample: in `app.py` the manual-trade route performs no cap
check, so a manual trade on a session that already has two open positions
opens a third one (claim: it is rejected with no state change). -/
theorem C1_counterexample :
    Fixtures.pyTwoOpen.open_trades.length = 2 ∧
    (AppPy.manual_trade_route Fixtures.pyTwoOpen .long (some 100)).1.isSome = true ∧
    (AppPy.manual_trade_route Fixtures.pyTwoOpen .long (some 100)).2.open_trades.length = 3 := by
  refine ⟨rfl, ?_, ?_⟩ <;>
    · simp only [AppPy.manual_trade_route, AppPy.place_enhanced_trade,
        AppPy.calculate_adaptive_risk_reward, AppPy.calculate_optimal_position_size,
        AppPy.roundTo, Fixtures.pyTwoOpen, Fixtures.pyTrade, AppPy.mkTrader]
      norm_num [round_eq, abs, sup_eq_max, max_def]

/-- C1 witness: the cap rejection and tick bound at concrete sessions. -/
theorem C1_witness :
    2 ≤ Fixtures.twoActive.active_trades.length ∧
    (AppOne.execute_trade Fixtures.twoActive Fixtures.longSig).1 = none ∧
    AppOne.manual_trade Fixtures.twoActive .long (some 100) =
      (none, Fixtures.twoActive) ∧
    (AppPy.tick Fixtures.pyTwoOpen (some 100) (some 100) 0 0).open_trades.length ≤ 2 :=
  ⟨by simp [Fixtures.twoActive, AppOne.mkTrader],
    (C1_open_position_cap.1 Fixtures.twoActive Fixtures.longSig
      (by simp [Fixtures.twoActive, AppOne.mkTrader])).1,
    C1_open_position_cap.2.1 Fixtures.twoActive .long (some 100)
      (by simp [Fixtures.twoActive, AppOne.mkTrader]),
    C1_open_position_cap.2.2 Fixtures.pyTwoOpen (some 100) (some 100) 0 0
      (by simp [Fixtures.pyTwoOpen, AppPy.mkTrader])⟩

/-- C2 (amended).  For every session state and every win-rate argument the
`app.py` policy output satisfies `riskPct ∈ [2,15]` and `rewardPct ∈ [8,50]`;
the skew `rewardPct ≥ 1.5 * riskPct` holds exactly for the values before
the final two-decimal rounding (including the `rewardPct := riskPct * 2`
fixup), and therefore holds up to `1/80` after rounding.  The `app_1.py`
drawdown-table policy (with its hardcoded base fractions) satisfies all
three properties exactly, on the percentage scale. -/
theorem C2_risk_reward_bounds :
    (∀ (s : AppPy.State) (w : ℚ),
      2 ≤ (AppPy.calculate_adaptive_risk_reward s w).1 ∧
      (AppPy.calculate_adaptive_risk_reward s w).1 ≤ 15 ∧
      8 ≤ (AppPy.calculate_adaptive_risk_reward s w).2 ∧
      (AppPy.calculate_adaptive_risk_reward s w).2 ≤ 50 ∧
      (AppPy.calculate_adaptive_risk_reward s w).1 * (3 / 2) - 1 / 80 ≤
        (AppPy.calculate_adaptive_risk_reward s w).2) ∧
    (∀ s : AppOne.State, s.base_risk = 1 / 20 → s.base_reward = 3 / 20 →
      2 ≤ (AppOne.get_dynamic_risk_reward s).1 * 100 ∧
      (AppOne.get_dynamic_risk_reward s).1 * 100 ≤ 15 ∧
      8 ≤ (AppOne.get_dynamic_risk_reward s).2 * 100 ∧
      (AppOne.get_dynamic_risk_reward s).2 * 100 ≤ 50 ∧
      (AppOne.get_dynamic_risk_reward s).1 * (3 / 2) ≤
        (AppOne.get_dynamic_risk_reward s).2) := by
  constructor
  · intro s w
    dsimp only [AppPy.calculate_adaptive_risk_reward]
    exact clamp_stage_bounds _ _
  · intro s h1 h2
    dsimp only [AppOne.get_dynamic_risk_reward]
    split_ifs <;> first
      | (rw [h1, h2]; norm_num)
      | norm_num

/-- C2 counterexample: with base risk 5.3356 and base reward 8.0049 (both
inside the documented ranges, target already met, no closed trades) the
returned, two-decimal-rounded pair is `(5.34, 8.00)`, and
`8.00 < 1.5 * 5.34 = 8.01` — the claimed skew fails on the rounded
output. -/
theorem C2_counterexample :
    AppPy.calculate_adaptive_risk_reward Fixtures.pyTightBase (1 / 2) =
      (267 / 50, 8) ∧
    (8 : ℚ) < 267 / 50 * (3 / 2) := by
  constructor
  · simp only [AppPy.calculate_adaptive_risk_reward, AppPy.roundTo,
      Fixtures.pyTightBase, AppPy.mkTrader]
    norm_num [round_eq]
  · norm_num

/-- C2 witness: the `app_1.py` conjunct applied to the freshly created
trader. -/
theorem C2_witness :
    2 ≤ (AppOne.get_dynamic_risk_reward AppOne.mkTrader).1 * 100 ∧
    (AppOne.get_dynamic_risk_reward AppOne.mkTrader).1 * 100 ≤ 15 ∧
    8 ≤ (AppOne.get_dynamic_risk_reward AppOne.mkTrader).2 * 100 ∧
    (AppOne.get_dynamic_risk_reward AppOne.mkTrader).2 * 100 ≤ 50 ∧
    (AppOne.get_dynamic_risk_reward AppOne.mkTrader).1 * (3 / 2) ≤
      (AppOne.get_dynamic_risk_reward AppOne.mkTrader).2 :=
  C2_risk_reward_bounds.2 AppOne.mkTrader rfl rfl

/-- C3 (amended).  In the `app.py` variant the close semantics are exactly
as claimed: the realized return is the direction-aware price change
percentage times the session leverage, the balance is updated
multiplicatively by `(1 + return/100)`, the trade is classified
`CLOSED_WIN` iff the return is positive, and the closed copy is appended
to the closed list; closing a LONG at entry 100 / exit 110 with leverage
10 yields a 100% return and doubles the balance.  (`app_1.py` instead adds
a quantity-scaled PnL to the balance — see the counterexample.) -/
theorem C3_close_semantics :
    (∀ (s : AppPy.State) (t : AppPy.TradeEntry) (e : ℚ),
      (AppPy.close_enhanced_trade s t e).1 =
        { t with
          exit_price := some e
          actual_return_pct := some (AppPy.price_change_pct t e * s.leverage)
          trade_status :=
            if AppPy.price_change_pct t e * s.leverage > 0 then .closedWin
            else .closedLoss } ∧
      (AppPy.close_enhanced_trade s t e).2.current_balance =
        s.current_balance * (1 + AppPy.price_change_pct t e * s.leverage / 100) ∧
      (AppPy.close_enhanced_trade s t e).2.closed_trades =
        s.closed_trades ++ [(AppPy.close_enhanced_trade s t e).1]) ∧
    (∀ (s : AppPy.State) (t : AppPy.TradeEntry),
      s.leverage = 10 → t.side = .long → t.entry_price = 100 →
      (AppPy.close_enhanced_trade s t 110).1.actual_return_pct = some 100 ∧
      (AppPy.close_enhanced_trade s t 110).2.current_balance =
        2 * s.current_balance) := by
  constructor
  · intro s t e
    exact ⟨rfl, rfl, rfl⟩
  · intro s t hL hs he
    have h1 : AppPy.price_change_pct t 110 = 10 := by
      simp only [AppPy.price_change_pct, hs, he, if_pos]
      norm_num
    constructor
    · show (AppPy.close_enhanced_trade s t 110).1.actual_return_pct = some 100
      dsimp only [AppPy.close_enhanced_trade]
      rw [h1, hL]
      norm_num
    · show (AppPy.close_enhanced_trade s t 110).2.current_balance =
        2 * s.current_balance
      dsimp only [AppPy.close_enhanced_trade]
      rw [h1, hL]
      ring

/-- C3 counterexample: in `app_1.py`, closing the same LONG position
(entry 100, exit 110, leverage 10, quantity 1) on a balance of 1000 adds
the quantity-scaled PnL of 100, giving 1100 — the balance does not double
and the update is not `balance * (1 + return/100)`. -/
theorem C3_counterexample :
    Fixtures.oneActive.balance = 1000 ∧
    Fixtures.oneTrade.entry_price = 100 ∧
    Fixtures.oneTrade.signal = Direction.long ∧
    Fixtures.oneTrade.leverage = 10 ∧
    (AppOne.close_trade Fixtures.oneActive Fixtures.oneTrade 110
      "Manual Close").balance = 1100 ∧
    (1100 : ℚ) ≠ 2 * 1000 := by
  refine ⟨rfl, rfl, rfl, rfl, ?_, by norm_num⟩
  simp only [AppOne.close_trade, Fixtures.oneActive, Fixtures.oneTrade,
    AppOne.mkTrader]
  norm_num

/-- C3 witness: the doubling example at a concrete session and trade. -/
theorem C3_witness :
    (AppPy.close_enhanced_trade AppPy.mkTrader Fixtures.pyTrade
      110).1.actual_return_pct = some 100 ∧
    (AppPy.close_enhanced_trade AppPy.mkTrader Fixtures.pyTrade
      110).2.current_balance = 2 * AppPy.mkTrader.current_balance :=
  C3_close_semantics.2 AppPy.mkTrader Fixtures.pyTrade rfl rfl rfl

/-- C4 (amended).  When the price fetch succeeds, `app.py`'s
`stop_trading` closes and moves every open position exactly once (the
closed count grows by exactly the prior open count), empties the open
list and sets status `STOPPED`; stopping an already-stopped session with
no open positions is a complete no-op, so the operation is idempotent.
When the price fetch fails, however, the open positions are left open (see
the counterexample).  `app_1.py`'s `stop_trading` always empties the
active list (its price fetch cannot fail, falling back to 1.0). -/
theorem C4_stop_semantics :
    (∀ (s : AppPy.State) (p : ℚ),
      (AppPy.stop_trading s (some p)).open_trades = [] ∧
      (AppPy.stop_trading s (some p)).closed_trades.length =
        s.closed_trades.length + s.open_trades.length ∧
      (AppPy.stop_trading s (some p)).status = "STOPPED" ∧
      (AppPy.stop_trading s (some p)).is_running = false) ∧
    (∀ (s : AppPy.State) (p? : Option ℚ),
      s.is_running = false → s.status = "STOPPED" → s.open_trades = [] →
      AppPy.stop_trading s p? = s) ∧
    (∀ (s : AppOne.State) (p? : Option ℚ),
      (AppOne.stop_trading s p?).active_trades = [] ∧
      (AppOne.stop_trading s p?).is_running = false) := by
  refine ⟨?_, ?_, ?_⟩
  · intro s p
    have h := closeAll_fields s.open_trades
      ({ s with is_running := false, status := "STOPPED" } : AppPy.State) p
    refine ⟨rfl, ?_, ?_, ?_⟩
    · exact h.2.2.2.2.1
    · exact h.2.2.2.2.2.1
    · have hrun : (AppPy.closeAll
          { s with is_running := false, status := "STOPPED" } s.open_trades
          p).is_running = false := h.2.2.2.2.2.2
      exact hrun
  · intro s p? h1 h2 h3
    cases p? <;> cases s <;> simp_all [AppPy.stop_trading, AppPy.closeAll]
  · intro s p?
    have h := appone_close_fold_active
      ({ s with is_running := false } : AppOne.State).active_trades
      { s with is_running := false } (AppOne.get_current_price p?)
      "Manual Close" rfl
    exact ⟨h.1, h.2⟩

/-- C4 counterexample: if the price fetch fails during `stop_trading`, the
`app.py` session is marked `STOPPED` but its open position is not closed —
the open list is not empty when `stop()` returns. -/
theorem C4_counterexample :
    (AppPy.stop_trading Fixtures.pyOneOpen none).open_trades.length = 1 ∧
    (AppPy.stop_trading Fixtures.pyOneOpen none).status = "STOPPED" ∧
    (1 : ℕ) ≠ 0 := by
  exact ⟨rfl, rfl, by decide⟩

/-- C4 witness: stopping a two-position session at price 100, the no-op
second stop, and the `app_1.py` stop at a concrete trader. -/
theorem C4_witness :
    (AppPy.stop_trading Fixtures.pyTwoOpen (some 100)).open_trades = [] ∧
    (AppPy.stop_trading Fixtures.pyTwoOpen (some 100)).closed_trades.length =
      Fixtures.pyTwoOpen.closed_trades.length +
        Fixtures.pyTwoOpen.open_trades.length ∧
    AppPy.stop_trading AppPy.mkTrader none = AppPy.mkTrader ∧
    (AppOne.stop_trading Fixtures.oneActive none).active_trades = [] :=
  ⟨(C4_stop_semantics.1 Fixtures.pyTwoOpen 100).1,
    (C4_stop_semantics.1 Fixtures.pyTwoOpen 100).2.1,
    C4_stop_semantics.2.1 AppPy.mkTrader none rfl rfl rfl,
    (C4_stop_semantics.2.2 Fixtures.oneActive none).1⟩

/-- C5 (amended).  With fewer than 3 closed positions `app.py`'s policy
skips the win-rate branch, so its output does not depend on the win-rate
argument at all; the base values are nevertheless still passed through the
urgency adjustment, the final clamps, the skew fixup and two-decimal
rounding, and equal the configured base pair exactly only when the urgency
adjustment is inactive and the base pair already satisfies the clamps, the
skew and the two-decimal grid. -/
theorem C5_base_passthrough :
    (∀ (s : AppPy.State) (w w' : ℚ), s.closed_trades.length < 3 →
      AppPy.calculate_adaptive_risk_reward s w =
        AppPy.calculate_adaptive_risk_reward s w') ∧
    (∀ (s : AppPy.State) (w : ℚ), s.closed_trades.length < 3 →
      s.target_roe ≤ s.current_roe →
      2 ≤ s.base_risk_pct → s.base_risk_pct ≤ 15 →
      8 ≤ s.base_reward_pct → s.base_reward_pct ≤ 50 →
      s.base_risk_pct * (3 / 2) ≤ s.base_reward_pct →
      AppPy.roundTo 2 s.base_risk_pct = s.base_risk_pct →
      AppPy.roundTo 2 s.base_reward_pct = s.base_reward_pct →
      AppPy.calculate_adaptive_risk_reward s w =
        (s.base_risk_pct, s.base_reward_pct)) := by
  constructor
  · intro s w w' h
    simp only [AppPy.calculate_adaptive_risk_reward, if_pos h]
  · intro s w h hroe hbr1 hbr2 hbw1 hbw2 hskew hr1 hr2
    have hrem : max 0 (s.target_roe - s.current_roe) = 0 :=
      max_eq_left (by linarith)
    simp only [AppPy.calculate_adaptive_risk_reward, if_pos h, hrem]
    rw [if_neg (fun hcon => lt_irrefl (0 : ℚ) hcon.1)]
    dsimp only
    rw [min_eq_left hbr2, max_eq_right hbr1, min_eq_left hbw2,
      max_eq_right hbw1, if_neg (not_lt.mpr hskew), hr1, hr2]

/-- C5 counterexample: a fresh session (zero closed positions) with base
risk 5 / base reward 15 but `max_trades` 10 returns `(6, 37.5)` — the
urgency adjustment fires even though fewer than 3 positions are closed, so
the policy does not return the configured base pair unchanged. -/
theorem C5_counterexample :
    Fixtures.pyUrgent.closed_trades.length < 3 ∧
    Fixtures.pyUrgent.base_risk_pct = 5 ∧
    Fixtures.pyUrgent.base_reward_pct = 15 ∧
    AppPy.calculate_adaptive_risk_reward Fixtures.pyUrgent (1 / 2) =
      (6, 75 / 2) ∧
    ((6 : ℚ), (75 : ℚ) / 2) ≠ ((5 : ℚ), (15 : ℚ)) := by
  refine ⟨by decide, rfl, rfl, ?_, by norm_num [Prod.mk.injEq]⟩
  simp only [AppPy.calculate_adaptive_risk_reward, AppPy.roundTo,
    Fixtures.pyUrgent, AppPy.mkTrader]
  norm_num [round_eq]

/-- C5 witness: on a session with the urgency adjustment inactive and
in-range base values, the policy returns the base pair; and with fewer
than 3 closed positions the output ignores the win rate. -/
theorem C5_witness :
    AppPy.calculate_adaptive_risk_reward Fixtures.pyMet (1 / 2) = (5, 15) ∧
    AppPy.calculate_adaptive_risk_reward AppPy.mkTrader 0 =
      AppPy.calculate_adaptive_risk_reward AppPy.mkTrader 1 :=
  ⟨C5_base_passthrough.2 Fixtures.pyMet (1 / 2) (by decide)
      (by norm_num [Fixtures.pyMet, AppPy.mkTrader])
      (by norm_num [Fixtures.pyMet, AppPy.mkTrader])
      (by norm_num [Fixtures.pyMet, AppPy.mkTrader])
      (by norm_num [Fixtures.pyMet, AppPy.mkTrader])
      (by norm_num [Fixtures.pyMet, AppPy.mkTrader])
      (by norm_num [Fixtures.pyMet, AppPy.mkTrader])
      (by norm_num [Fixtures.pyMet, AppPy.mkTrader, AppPy.roundTo, round_eq])
      (by norm_num [Fixtures.pyMet, AppPy.mkTrader, AppPy.roundTo, round_eq]),
    C5_base_passthrough.1 AppPy.mkTrader 0 1 (by decide)⟩

/-- C6 (amended).  On a failed open attempt: in `app.py` a price-fetch
failure changes nothing at all, and every other failure (invalid sized
quantity) leaves the balance, both trade lists, the signal history and
counters unchanged — but the position counter has already been
incremented; in `app_1.py` all validation precedes any mutation, so a
failing `execute_trade` changes nothing except `last_error` (the failure
reason it reports). -/
theorem C6_validation_no_partial_mutation :
    (∀ (s : AppPy.State) (side : Direction),
      AppPy.place_enhanced_trade s side none = (none, s)) ∧
    (∀ (s : AppPy.State) (side : Direction) (p : ℚ),
      (AppPy.place_enhanced_trade s side (some p)).1 = none →
      (AppPy.place_enhanced_trade s side (some p)).2 =
        { s with trade_counter := s.trade_counter + 1 }) ∧
    (∀ (s : AppOne.State) (sig : AppOne.Sig),
      (AppOne.execute_trade s sig).1 = none →
      (AppOne.execute_trade s sig).2.balance = s.balance ∧
      (AppOne.execute_trade s sig).2.trades = s.trades ∧
      (AppOne.execute_trade s sig).2.active_trades = s.active_trades ∧
      (AppOne.execute_trade s sig).2.signals = s.signals ∧
      (AppOne.execute_trade s sig).2.long_count = s.long_count ∧
      (AppOne.execute_trade s sig).2.short_count = s.short_count) :=
  ⟨fun _ _ => rfl, place_failure_state, execute_trade_failure⟩

/-- C6 counterexample: in `app.py`, a session with balance 0 fails the
quantity validation (no position is created) yet the position counter has
been incremented from 0 to 1 — a partial mutation on a failed attempt. -/
theorem C6_counterexample :
    (AppPy.place_enhanced_trade Fixtures.pyBroke .long (some 100)).1 = none ∧
    (AppPy.place_enhanced_trade Fixtures.pyBroke .long
      (some 100)).2.trade_counter = 1 ∧
    Fixtures.pyBroke.trade_counter = 0 := by
  refine ⟨?_, ?_, rfl⟩ <;>
    · simp only [AppPy.place_enhanced_trade, AppPy.calculate_adaptive_risk_reward,
        AppPy.calculate_optimal_position_size, AppPy.roundTo, Fixtures.pyBroke,
        AppPy.mkTrader]
      norm_num [round_eq, abs, sup_eq_max, max_def]

/-- C6 witness: the no-price no-op, the counter-only mutation on a
quantity failure, and the `app_1.py` mutation-free rejection, at concrete
sessions. -/
theorem C6_witness :
    AppPy.place_enhanced_trade AppPy.mkTrader .long none = (none, AppPy.mkTrader) ∧
    (AppPy.place_enhanced_trade Fixtures.pyBroke .long (some 100)).2 =
      { Fixtures.pyBroke with trade_counter := Fixtures.pyBroke.trade_counter + 1 } ∧
    (AppOne.execute_trade Fixtures.twoActive Fixtures.longSig).2.balance =
      Fixtures.twoActive.balance :=
  ⟨C6_validation_no_partial_mutation.1 AppPy.mkTrader .long,
    C6_validation_no_partial_mutation.2.1 Fixtures.pyBroke .long 100
      (by
        simp only [AppPy.place_enhanced_trade, AppPy.calculate_adaptive_risk_reward,
          AppPy.calculate_optimal_position_size, AppPy.roundTo, Fixtures.pyBroke,
          AppPy.mkTrader]
        norm_num [round_eq, abs, sup_eq_max, max_def]),
    (C6_validation_no_partial_mutation.2.2 Fixtures.twoActive Fixtures.longSig
      (by simp [AppOne.execute_trade, Fixtures.twoActive, AppOne.mkTrader])).1⟩

/-- C7 (amended).  In `app.py` a failed price fetch makes the tick's exit
check and trade attempt no-ops: the whole tick leaves the balance, the
open and closed lists and the run flag unchanged, so a fetch failure is
never fatal and no position is touched at a substitute price.  In
`app_1.py`, however, a failed fetch is replaced by the fallback price 1.0,
at which exits are evaluated and positions really close — see the
counterexample. -/
theorem C7_price_failure_skips_tick :
    (∀ s : AppPy.State, AppPy.check_trade_exits s none = s) ∧
    (∀ (s : AppPy.State) (side : Direction),
      AppPy.place_enhanced_trade s side none = (none, s)) ∧
    (∀ (s : AppPy.State) (r1 r2 : ℚ),
      (AppPy.tick s none none r1 r2).current_balance = s.current_balance ∧
      (AppPy.tick s none none r1 r2).open_trades = s.open_trades ∧
      (AppPy.tick s none none r1 r2).closed_trades = s.closed_trades ∧
      (AppPy.tick s none none r1 r2).is_running = s.is_running) := by
  refine ⟨fun _ => rfl, fun _ _ => rfl, ?_⟩
  intro s r1 r2
  dsimp only [AppPy.tick, AppPy.check_trade_exits, AppPy.place_enhanced_trade]
  split_ifs <;> exact ⟨rfl, rfl, rfl, rfl⟩

/-- C7 counterexample: in `app_1.py` a failed price fetch yields the
fallback price 1.0; an exit check during the failure closes the open LONG
(entry 100, stop 99.5) at exit price 1, wiping the balance from 1000 to
10 — a position is closed at a substitute price. -/
theorem C7_counterexample :
    Fixtures.oneActive.active_trades.length = 1 ∧
    (AppOne.check_trade_exits Fixtures.oneActive none).active_trades.length = 0 ∧
    (AppOne.check_trade_exits Fixtures.oneActive none).trades.map
      (fun t => t.exit_price) = [some 1] ∧
    (AppOne.check_trade_exits Fixtures.oneActive none).balance = 10 ∧
    Fixtures.oneActive.balance = 1000 := by
  refine ⟨rfl, ?_, ?_, ?_, rfl⟩ <;>
    · simp only [AppOne.check_trade_exits, AppOne.get_current_price,
        AppOne.exitReason, AppOne.close_trade, AppOne.eraseFirst,
        AppOne.replaceFirst, Fixtures.oneActive, Fixtures.oneTrade,
        AppOne.mkTrader, List.foldl, Option.getD]
      norm_num

/-- C8 (amended).  `app.py`'s position sizer returns the claimed formula
`balance * riskPct/100 / (|entry - stopLoss| / entry) / entry * 0.95`
rounded to 8 decimal places (the rounding is the only deviation from the
claim); the worked example `entry=100, stopLoss=95, riskPct=5,
balance=1000` yields exactly 9.5; `entry = stopLoss` returns 0; and a
non-positive sized quantity makes the placement fail with the open list
unchanged — no position is created. -/
theorem C8_position_sizer :
    (∀ balance risk entry stop : ℚ, entry ≠ stop → 0 < entry →
      AppPy.calculate_optimal_position_size balance risk entry stop =
        AppPy.roundTo 8
          (balance * (risk / 100) / (|entry - stop| / entry) / entry * (19 / 20))) ∧
    (∀ balance risk entry : ℚ,
      AppPy.calculate_optimal_position_size balance risk entry entry = 0) ∧
    AppPy.calculate_optimal_position_size 1000 5 100 95 = 19 / 2 ∧
    (∀ (s : AppPy.State) (side : Direction) (p : ℚ),
      (AppPy.place_enhanced_trade s side (some p)).1 = none →
      (AppPy.place_enhanced_trade s side (some p)).2.open_trades =
        s.open_trades) := by
  refine ⟨?_, ?_, ?_, ?_⟩
  · intro b r e st hne _
    have hd : ¬ |e - st| = 0 := by
      simpa [abs_eq_zero, sub_eq_zero] using hne
    dsimp only [AppPy.calculate_optimal_position_size]
    rw [if_neg hd]
  · intro b r e
    simp [AppPy.calculate_optimal_position_size]
  · simp only [AppPy.calculate_optimal_position_size, AppPy.roundTo]
    norm_num [round_eq, abs, sup_eq_max, max_def]
  · intro s side p h
    rw [place_failure_state s side p h]

/-- C8 counterexample: at `balance=1000, riskPct=5, entry=4, stopLoss=1`
the formula value is `95/6 = 15.8333...`, but the sizer returns the
8-decimal rounding `15.83333333` — the claimed exact equality fails. -/
theorem C8_counterexample :
    AppPy.calculate_optimal_position_size 1000 5 4 1 = 1583333333 / 100000000 ∧
    (1583333333 : ℚ) / 100000000 ≠
      1000 * ((5 : ℚ) / 100) / (|(4 : ℚ) - 1| / 4) / 4 * (19 / 20) := by
  constructor
  · simp only [AppPy.calculate_optimal_position_size, AppPy.roundTo]
    norm_num [round_eq, abs, sup_eq_max, max_def]
  · norm_num [abs, sup_eq_max, max_def]

/-- C8 witness: the formula shape at the worked example, and the
unchanged open list on a failing placement. -/
theorem C8_witness :
    AppPy.calculate_optimal_position_size 1000 5 100 95 =
      AppPy.roundTo 8
        (1000 * ((5 : ℚ) / 100) / (|(100 : ℚ) - 95| / 100) / 100 * (19 / 20)) ∧
    (AppPy.place_enhanced_trade Fixtures.pyBroke .long (some 100)).2.open_trades =
      Fixtures.pyBroke.open_trades :=
  ⟨C8_position_sizer.1 1000 5 100 95 (by norm_num) (by norm_num),
    C8_position_sizer.2.2.2 Fixtures.pyBroke .long 100
      (by
        simp only [AppPy.place_enhanced_trade, AppPy.calculate_adaptive_risk_reward,
          AppPy.calculate_optimal_position_size, AppPy.roundTo, Fixtures.pyBroke,
          AppPy.mkTrader]
        norm_num [round_eq, abs, sup_eq_max, max_def])⟩

/-- C9.  Signal direction: with fewer than 10 recorded signals the
direction is a uniform coin flip (LONG exactly when the uniform draw falls
in the lower half of `[0,1)`, hence probability 1/2 each); once at least
10 signals exist, a long ratio above 0.6 forces SHORT deterministically
and a short ratio above 0.6 forces LONG.  This holds in both variants,
each with its own total: `app.py` measures the total by the length of the
signal history, `app_1.py` by the sum of the two counters. -/
theorem C9_signal_direction :
    (∀ (s : AppPy.State) (r : ℚ), s.signal_history.length < 10 →
      ((AppPy.generate_balanced_signal s r).1 = .long ↔ r < 1 / 2)) ∧
    (∀ (s : AppPy.State) (r : ℚ), 10 ≤ s.signal_history.length →
      (3 : ℚ) / 5 < (s.long_count : ℚ) / s.signal_history.length →
      (AppPy.generate_balanced_signal s r).1 = .short) ∧
    (∀ (s : AppPy.State) (r : ℚ), 10 ≤ s.signal_history.length →
      s.long_count + s.short_count = s.signal_history.length →
      (3 : ℚ) / 5 < (s.short_count : ℚ) / s.signal_history.length →
      (AppPy.generate_balanced_signal s r).1 = .long) ∧
    (∀ (s : AppOne.State) (p? : Option ℚ) (r : ℚ),
      s.long_count + s.short_count < 10 →
      ((AppOne.generate_signal s p? r).1.direction = .long ↔ r < 1 / 2)) ∧
    (∀ (s : AppOne.State) (p? : Option ℚ) (r : ℚ),
      10 ≤ s.long_count + s.short_count →
      (3 : ℚ) / 5 < (s.long_count : ℚ) / ((s.long_count + s.short_count : ℕ) : ℚ) →
      (AppOne.generate_signal s p? r).1.direction = .short) ∧
    (∀ (s : AppOne.State) (p? : Option ℚ) (r : ℚ),
      10 ≤ s.long_count + s.short_count →
      (3 : ℚ) / 5 < (s.short_count : ℚ) / ((s.long_count + s.short_count : ℕ) : ℚ) →
      (AppOne.generate_signal s p? r).1.direction = .long) := by
  refine ⟨?_, ?_, ?_, ?_, ?_, ?_⟩
  · intro s r h
    dsimp only [AppPy.generate_balanced_signal]
    rw [if_pos h]
    split_ifs with hr
    · exact iff_of_true rfl hr
    · exact iff_of_false (by simp) hr
  · intro s r h hlr
    dsimp only [AppPy.generate_balanced_signal]
    rw [if_neg (by omega : ¬ s.signal_history.length < 10), if_pos hlr]
  · intro s r h hsum hsr
    have hT : (0 : ℚ) < (s.signal_history.length : ℚ) := by
      have : 0 < s.signal_history.length := by omega
      exact_mod_cast this
    have hl : (s.long_count : ℚ) =
        (s.signal_history.length : ℚ) - (s.short_count : ℚ) := by
      have h' : (s.long_count : ℚ) + (s.short_count : ℚ) =
          (s.signal_history.length : ℚ) := by exact_mod_cast congrArg Nat.cast hsum
      linarith
    have hlr : ¬ ((3 : ℚ) / 5 <
        (s.long_count : ℚ) / (s.signal_history.length : ℚ)) := by
      have h1 : (s.long_count : ℚ) / (s.signal_history.length : ℚ) =
          1 - (s.short_count : ℚ) / (s.signal_history.length : ℚ) := by
        rw [hl, sub_div, div_self hT.ne']
      rw [h1]
      push_neg
      linarith
    dsimp only [AppPy.generate_balanced_signal]
    rw [if_neg (by omega : ¬ s.signal_history.length < 10), if_neg hlr,
      if_pos hsr]
  · intro s p? r h
    dsimp only [AppOne.generate_signal]
    rw [if_pos h]
    split_ifs with hr
    · exact iff_of_true rfl hr
    · exact iff_of_false (by simp) hr
  · intro s p? r h hlr
    have hm : max (s.long_count + s.short_count) 1 = s.long_count + s.short_count :=
      max_eq_left (by omega)
    dsimp only [AppOne.generate_signal]
    rw [hm, if_neg (by omega : ¬ s.long_count + s.short_count < 10), if_pos hlr]
  · intro s p? r h hsr
    have hm : max (s.long_count + s.short_count) 1 = s.long_count + s.short_count :=
      max_eq_left (by omega)
    have hT : (0 : ℚ) < ((s.long_count + s.short_count : ℕ) : ℚ) := by
      have : 0 < s.long_count + s.short_count := by omega
      exact_mod_cast this
    have hl : (s.long_count : ℚ) =
        ((s.long_count + s.short_count : ℕ) : ℚ) - (s.short_count : ℚ) := by
      push_cast
      ring
    have hlr : ¬ ((3 : ℚ) / 5 <
        (s.long_count : ℚ) / ((s.long_count + s.short_count : ℕ) : ℚ)) := by
      have h1 : (s.long_count : ℚ) / ((s.long_count + s.short_count : ℕ) : ℚ) =
          1 - (s.short_count : ℚ) / ((s.long_count + s.short_count : ℕ) : ℚ) := by
        rw [hl, sub_div, div_self hT.ne']
      rw [h1]
      push_neg
      linarith
    dsimp only [AppOne.generate_signal]
    rw [hm, if_neg (by omega : ¬ s.long_count + s.short_count < 10), if_neg hlr,
      if_pos hsr]

/-- C9 witness: the bootstrap coin flip and both forcing rules at concrete
sessions. -/
theorem C9_witness :
    (AppPy.generate_balanced_signal AppPy.mkTrader (1 / 4)).1 = .long ∧
    (AppPy.generate_balanced_signal Fixtures.pySkewedSignals 0).1 = .short ∧
    ((AppOne.generate_signal AppOne.mkTrader none (1 / 4)).1.direction = .long) ∧
    ((AppOne.generate_signal Fixtures.a1Skewed none 0).1.direction = .short) :=
  ⟨(C9_signal_direction.1 AppPy.mkTrader (1 / 4) (by decide)).mpr (by norm_num),
    C9_signal_direction.2.1 Fixtures.pySkewedSignals 0 (by decide)
      (by norm_num [Fixtures.pySkewedSignals, AppPy.mkTrader]),
    (C9_signal_direction.2.2.2.1 AppOne.mkTrader none (1 / 4) (by decide)).mpr
      (by norm_num),
    C9_signal_direction.2.2.2.2.1 Fixtures.a1Skewed none 0 (by decide)
      (by norm_num [Fixtures.a1Skewed, AppOne.mkTrader])⟩

/-- C10 (amended).  Every signal-generation call, in both variants,
appends exactly one signal and increments exactly one of the two counters
by one, and the invariant `longCount + shortCount = recorded signals`
is preserved by `app.py`'s signal generation, force-balance, control-loop
tick and stop, and by `app_1.py`'s signal generation and manual-trade
route.  (`app_1.py`'s force-balance route instead zeroes both counters
while keeping the history — see the counterexample.) -/
theorem C10_signal_invariant :
    (∀ (s : AppPy.State) (r : ℚ),
      (AppPy.generate_balanced_signal s r).2.signal_history.length =
        s.signal_history.length + 1 ∧
      (AppPy.generate_balanced_signal s r).2.long_count +
        (AppPy.generate_balanced_signal s r).2.short_count =
        s.long_count + s.short_count + 1) ∧
    (∀ s : AppPy.State,
      s.long_count + s.short_count = s.signal_history.length →
      (AppPy.force_signal_balance s).long_count +
        (AppPy.force_signal_balance s).short_count =
        (AppPy.force_signal_balance s).signal_history.length) ∧
    (∀ (s : AppPy.State) (pe pp : Option ℚ) (r1 r2 : ℚ),
      s.long_count + s.short_count = s.signal_history.length →
      (AppPy.tick s pe pp r1 r2).long_count +
        (AppPy.tick s pe pp r1 r2).short_count =
        (AppPy.tick s pe pp r1 r2).signal_history.length) ∧
    (∀ (s : AppPy.State) (p? : Option ℚ),
      s.long_count + s.short_count = s.signal_history.length →
      (AppPy.stop_trading s p?).long_count +
        (AppPy.stop_trading s p?).short_count =
        (AppPy.stop_trading s p?).signal_history.length) ∧
    (∀ (s : AppOne.State) (p? : Option ℚ) (r : ℚ),
      (AppOne.generate_signal s p? r).2.signals.length = s.signals.length + 1 ∧
      (AppOne.generate_signal s p? r).2.long_count +
        (AppOne.generate_signal s p? r).2.short_count =
        s.long_count + s.short_count + 1) ∧
    (∀ (s : AppOne.State) (d : Direction) (p? : Option ℚ),
      s.long_count + s.short_count = s.signals.length →
      (AppOne.manual_trade s d p?).2.long_count +
        (AppOne.manual_trade s d p?).2.short_count =
        (AppOne.manual_trade s d p?).2.signals.length) := by
  refine ⟨generate_counts, ?_, ?_, ?_, ?_, ?_⟩
  · intro s hinv
    dsimp only [AppPy.force_signal_balance]
    split_ifs with h0
    · have hlen : s.signal_history.length / 2 +
          (s.signal_history.length - s.signal_history.length / 2) =
          s.signal_history.length := by omega
      exact hlen
    · exact hinv
  · intro s pe pp r1 r2 hinv
    have hc := check_trade_exits_fields s pe
    have hinv1 : (AppPy.check_trade_exits s pe).long_count +
        (AppPy.check_trade_exits s pe).short_count =
        (AppPy.check_trade_exits s pe).signal_history.length := by
      rw [hc.2.2.1, hc.2.2.2, hc.2.1]
      exact hinv
    dsimp only [AppPy.tick]
    split_ifs with h1 h2
    · have hg := generate_counts (AppPy.check_trade_exits s pe) r1
      have hp := place_fields
        (AppPy.generate_balanced_signal (AppPy.check_trade_exits s pe) r1).2
        (AppPy.generate_balanced_signal (AppPy.check_trade_exits s pe) r1).1 pp
      rw [hp.2.2.1, hp.2.2.2, hp.2.1, hg.2, hg.1]
      omega
    · have hg := generate_counts (AppPy.check_trade_exits s pe) r1
      rw [hg.2, hg.1]
      omega
    · exact hinv1
  · intro s p? hinv
    cases p? with
    | none => exact hinv
    | some p =>
      have h := closeAll_fields
        ({ s with is_running := false, status := "STOPPED" } : AppPy.State).open_trades
        { s with is_running := false, status := "STOPPED" } p
      show (AppPy.closeAll { s with is_running := false, status := "STOPPED" }
          ({ s with is_running := false, status := "STOPPED" } :
            AppPy.State).open_trades p).long_count +
          (AppPy.closeAll { s with is_running := false, status := "STOPPED" }
            ({ s with is_running := false, status := "STOPPED" } :
              AppPy.State).open_trades p).short_count =
          (AppPy.closeAll { s with is_running := false, status := "STOPPED" }
            ({ s with is_running := false, status := "STOPPED" } :
              AppPy.State).open_trades p).signal_history.length
      rw [h.2.2.1, h.2.2.2.1, h.2.1]
      exact hinv
  · intro s p? r
    dsimp only [AppOne.generate_signal]
    refine ⟨by simp, ?_⟩
    split_ifs <;> first | omega | simp_all
  · intro s d p? hinv
    cases d <;> dsimp only [AppOne.manual_trade] <;> split_ifs <;>
      first
        | exact hinv
        | (rw [(execute_trade_signals _ _).1, (execute_trade_signals _ _).2.1,
            (execute_trade_signals _ _).2.2]
           simp
           omega)
        | simp_all

/-- C10 counterexample: `app_1.py`'s force-balance route zeroes both
counters but keeps the one recorded signal, so `longCount + shortCount`
(0) no longer equals the number of recorded signals (1). -/
theorem C10_counterexample :
    Fixtures.oneSignal.long_count + Fixtures.oneSignal.short_count =
      Fixtures.oneSignal.signals.length ∧
    (AppOne.force_balance Fixtures.oneSignal).long_count +
      (AppOne.force_balance Fixtures.oneSignal).short_count = 0 ∧
    (AppOne.force_balance Fixtures.oneSignal).signals.length = 1 ∧
    (0 : ℕ) ≠ 1 :=
  ⟨rfl, rfl, rfl, by decide⟩

/-- C10 witness: invariant preservation at concrete sessions for
force-balance, a full tick and a manual trade. -/
theorem C10_witness :
    (AppPy.force_signal_balance Fixtures.pySkewedSignals).long_count +
      (AppPy.force_signal_balance Fixtures.pySkewedSignals).short_count =
      (AppPy.force_signal_balance Fixtures.pySkewedSignals).signal_history.length ∧
    (AppPy.tick AppPy.mkTrader none none 0 0).long_count +
      (AppPy.tick AppPy.mkTrader none none 0 0).short_count =
      (AppPy.tick AppPy.mkTrader none none 0 0).signal_history.length ∧
    (AppOne.manual_trade AppOne.mkTrader .long (some 100)).2.long_count +
      (AppOne.manual_trade AppOne.mkTrader .long (some 100)).2.short_count =
      (AppOne.manual_trade AppOne.mkTrader .long (some 100)).2.signals.length :=
  ⟨C10_signal_invariant.2.1 Fixtures.pySkewedSignals (by decide),
    C10_signal_invariant.2.2.1 AppPy.mkTrader none none 0 0 (by decide),
    C10_signal_invariant.2.2.2.2.2 AppOne.mkTrader .long (some 100) (by decide)⟩
